import Mathlib

/-!
Shallow embedding of the IO22D08 relay/display driver
(`src/IO22D08.h`, `src/IO22D08.cpp`).

The board state consists of the Output Frame Buffer — four 16-bit digit
words, one 8-bit relay byte and the colon flag — together with the level
of the relay shift register's output-enable pin.  All machine integers
are modelled as `Nat`; 8/16-bit truncation is written explicitly
(`% 256`, `% 65536`) at the places the C++ types impose it.

Physical pin activity of `refreshDisplayAndRelays` is modelled as a list
of `ShiftEvent`s (latch edges and the individual data bits clocked out
by Arduino's `shiftOut`).

A C++ array access with an index outside the array is undefined
behaviour; public entry points whose indices come straight from caller
arguments (`displayCharacter`, `displayMessage`) therefore return
`Option` and yield `none` exactly when the source would index out of
bounds.  The private helpers (`_updateDigit` etc.) are only reached
in-bounds and are total.
-/

namespace IO22D08

/-- `_characters[17]` (IO22D08.h): segment pattern per symbol index. -/
def characters : List Nat :=
  [0x2008,  -- 0
   0x7A08,  -- 1
   0xE000,  -- 2
   0x6200,  -- 3
   0x3A00,  -- 4
   0x2210,  -- 5
   0x2010,  -- 6
   0x6A08,  -- 7
   0x2000,  -- 8
   0x2200,  -- 9
   0xFA18,  -- 10 ' ' (blank)
   0x2008,  -- 11 O
   0x7810,  -- 12 n
   0xA810,  -- 13 F
   0xA010,  -- 14 E
   0xF810,  -- 15 r
   0xF218]  -- 16 _

/-- Total lookup into `_characters`; callers are guarded so the
out-of-range default is never reached on a defined path. -/
def charAt (c : Nat) : Nat := characters.getD c 0

/-- `_digitSelect[numDisplayDigits]` (IO22D08.h). -/
def digitSelect : List Nat := [0x0400, 0x0002, 0x0004, 0x0020]

/-- Total lookup into `_digitSelect` for a valid position. -/
def digitSelectAt (n : Fin 4) : Nat := digitSelect.getD n.val 0

/-- `_dpSegment` (IO22D08.h): mask whose clear bit is the DP/colon
segment (active low). -/
def dpSegment : Nat := 0xDFFF

/-- `_displayMessages[numDisplayMessages][numDisplayDigits]`
(IO22D08.h): symbol indices for the canned messages. -/
def displayMessages : List (List Nat) :=
  [[10, 10, 10, 10],  -- '    '
   [10, 10, 11, 12],  -- '  On'
   [10, 11, 13, 13],  -- ' OFF'
   [10, 14, 15, 15]]  -- ' Err'

/-- Total lookup of one symbol index of one message. -/
def messageSymbol (m : Nat) (n : Fin 4) : Nat :=
  (displayMessages.getD m []).getD n.val 0

/-- The driver-owned mutable state: the Output Frame Buffer
(`_displayBuffer`, `_relayBuffer`, `_displayColon`) plus the level of
the relay output-enable pin `_relayOEpin` (active low: high = relays
forced off). -/
structure IOState where
  displayBuffer : Fin 4 → Nat
  relayBuffer : Nat
  displayColon : Bool
  relayOEHigh : Bool

/-- `IO22D08::IO22D08()` plus the default member initialisers.
`_relayBuffer = 0` and `_displayColon = false` are in-class
initialisers; `_displayBuffer` has none and the constructor body is
empty, so the digit words keep whatever the underlying memory held —
modelled by the `junk` parameter.  Likewise the OE pin level is
whatever it was before `begin()` runs (`oeJunk`). -/
def construct (junk : Fin 4 → Nat) (oeJunk : Bool) : IOState :=
  { displayBuffer := junk
    relayBuffer := 0
    displayColon := false
    relayOEHigh := oeJunk }

/-- `IO22D08::disableRelays()`: drive `_relayOEpin` high (outputs
disabled, active-low OE). -/
def disableRelays (s : IOState) : IOState := { s with relayOEHigh := true }

/-- `IO22D08::enableRelays()`: drive `_relayOEpin` low (outputs
enabled). -/
def enableRelays (s : IOState) : IOState := { s with relayOEHigh := false }

/-- `IO22D08::begin()`: the pinMode calls configure pins and the one
write to board state is `disableRelays()`. -/
def «begin» (s : IOState) : IOState := disableRelays s

/-- The state of the physical relay coils: the ULN2803 driver sinks
current only while the relay shift register's outputs are enabled
(OE low); with OE high every relay is off regardless of the buffered
byte (comment above `IO22D08::enableRelays`). -/
def physicalRelays (s : IOState) : Nat :=
  if s.relayOEHigh then 0 else s.relayBuffer

/-- `IO22D08::_updateDigitSelect(n)`:
`_displayBuffer[n] |= _digitSelect[n];` -/
def updateDigitSelect (n : Fin 4) (s : IOState) : IOState :=
  { s with displayBuffer :=
      Function.update s.displayBuffer n (s.displayBuffer n ||| digitSelectAt n) }

/-- `IO22D08::_updateDigit(n, c)`: `_displayBuffer[n] = _characters[c];`
(reached only with `c < 17`). -/
def updateDigit (n : Fin 4) (c : Nat) (s : IOState) : IOState :=
  { s with displayBuffer := Function.update s.displayBuffer n (charAt c) }

/-- `IO22D08::_updateColon()`: with the colon enabled, AND digit words
1 and 2 with `_dpSegment` (assert the active-low DP segment); otherwise
OR in `~_dpSegment`, which on a `uint16_t` is `0x2000` (deassert it);
then re-apply the digit selects of positions 1 and 2. -/
def updateColon (s : IOState) : IOState :=
  let b := s.displayBuffer
  let b' : Fin 4 → Nat :=
    if s.displayColon then
      Function.update (Function.update b 1 (b 1 &&& dpSegment)) 2 (b 2 &&& dpSegment)
    else
      Function.update (Function.update b 1 (b 1 ||| 0x2000)) 2 (b 2 ||| 0x2000)
  updateDigitSelect 2 (updateDigitSelect 1 { s with displayBuffer := b' })

/-- `IO22D08::displayCharacter(n, c)`: `_updateDigit`, then
`_updateDigitSelect`, then `_updateColon`.  `n` and `c` come straight
from the caller and index `_displayBuffer[4]` and `_characters[17]`
unchecked; out of range is undefined behaviour, modelled as `none`. -/
def displayCharacter (n c : Nat) (s : IOState) : Option IOState :=
  if h : n < 4 ∧ c < 17 then
    some (updateColon (updateDigitSelect ⟨n, h.1⟩ (updateDigit ⟨n, h.1⟩ c s)))
  else
    none

/-- One iteration of the `displayNumber` loop body: digit write, digit
select, then `number /= 10`, threading `(number, state)`. -/
def displayNumberStep (p : Nat × IOState) (n : Fin 4) : Nat × IOState :=
  (p.1 / 10, updateDigitSelect n (updateDigit n (p.1 % 10) p.2))

/-- `IO22D08::displayNumber(number)`: the loop
`for (size_t n = numDisplayDigits; n-- > 0;)` visits positions
3,2,1,0, writing `number % 10` and dividing by 10 each time; then
`_updateColon()`. -/
def displayNumber (v : Nat) (s : IOState) : IOState :=
  updateColon (([3, 2, 1, 0] : List (Fin 4)).foldl displayNumberStep (v, s)).2

/-- `IO22D08::displayMessage(m)`: for positions 0..3 write
`_displayMessages[m][n]` and the digit select, then `_updateColon()`.
`m` indexes `_displayMessages[4]` unchecked; out of range is undefined
behaviour, modelled as `none`. -/
def displayMessage (m : Nat) (s : IOState) : Option IOState :=
  if m < 4 then
    some (updateColon (([0, 1, 2, 3] : List (Fin 4)).foldl
      (fun t n => updateDigitSelect n (updateDigit n (messageSymbol m n) t)) s))
  else
    none

/-- `IO22D08::setColon(state)`. -/
def setColon (state : Bool) (s : IOState) : IOState :=
  updateColon { s with displayColon := state }

/-- `IO22D08::toggleColon()`: `_displayColon ^= true`. -/
def toggleColon (s : IOState) : IOState :=
  updateColon { s with displayColon := xor s.displayColon true }

/-- `IO22D08::relayNumToMask(relayNum)`:
`if (relayNum >= 8) relayNum = 0; return 1 << relayNum;` -/
def relayNumToMask (relayNum : Nat) : Nat :=
  1 <<< (if relayNum ≥ 8 then 0 else relayNum)

/-- `IO22D08::relaySet(mask, state)`:
`_relayBuffer = (_relayBuffer & ~mask) | (state & mask);` — for the
8-bit operands `~mask` acts as `0xFF ^ mask` on the bits that can be
set in `_relayBuffer`. -/
def relaySet (mask state : Nat) (s : IOState) : IOState :=
  { s with relayBuffer := (s.relayBuffer &&& (0xFF ^^^ mask)) ||| (state &&& mask) }

/-- `IO22D08::relayGet(mask)`: `return _relayBuffer & mask;` -/
def relayGet (mask : Nat) (s : IOState) : Nat := s.relayBuffer &&& mask

/-- `IO22D08::relaySetN(relayNum, state)`. -/
def relaySetN (relayNum : Nat) (state : Bool) (s : IOState) : IOState :=
  relaySet (relayNumToMask relayNum) (if state then 0xFF else 0x00) s

/-- `IO22D08::relayIsOn(relayNum)`. -/
def relayIsOn (relayNum : Nat) (s : IOState) : Bool :=
  s.relayBuffer &&& relayNumToMask relayNum ≠ 0

/-- Observable activity on the shift-register pins: latch edges and
single data bits clocked out. -/
inductive ShiftEvent where
  | latchLow
  | latchHigh
  | dataBit (b : Bool)
deriving DecidableEq, Repr

/-- Arduino `shiftOut(dataPin, clockPin, MSBFIRST, val)`: for
`i = 0..7` write data bit `!!(val & (1 << (7 - i)))` and pulse the
clock. -/
def shiftOut (val : Nat) : List ShiftEvent :=
  (List.range 8).map (fun i => ShiftEvent.dataBit ((val &&& (1 <<< (7 - i))) != 0))

/-- Arduino macro `lowByte(w)`: `(uint8_t)((w) & 0xff)`. -/
def lowByte (w : Nat) : Nat := w &&& 0xFF

/-- Arduino macro `highByte(w)`: `(uint8_t)((w) >> 8)`. -/
def highByte (w : Nat) : Nat := (w >>> 8) % 256

/-- `IO22D08::refreshDisplayAndRelays()`: for each digit word `d` of
`_displayBuffer` in order, pull the latch low, shift out `lowByte(d)`,
`highByte(d)` and `_relayBuffer` MSB-first, and raise the latch.  The
buffer is only read; the function's result is the unchanged state
paired with the emitted pin-event trace. -/
def refreshDisplayAndRelays (s : IOState) : IOState × List ShiftEvent :=
  (s,
    ([0, 1, 2, 3] : List (Fin 4)).foldl
      (fun acc n =>
        acc ++
        (ShiftEvent.latchLow ::
          (shiftOut (lowByte (s.displayBuffer n)) ++
           shiftOut (highByte (s.displayBuffer n)) ++
           shiftOut s.relayBuffer ++ [ShiftEvent.latchHigh])))
      [])

/-- The 8 data-bit events of one byte, most significant bit first,
phrased with `Nat.testBit`. -/
def byteBitsMSB (v : Nat) : List ShiftEvent :=
  [ShiftEvent.dataBit (v.testBit 7), ShiftEvent.dataBit (v.testBit 6),
   ShiftEvent.dataBit (v.testBit 5), ShiftEvent.dataBit (v.testBit 4),
   ShiftEvent.dataBit (v.testBit 3), ShiftEvent.dataBit (v.testBit 2),
   ShiftEvent.dataBit (v.testBit 1), ShiftEvent.dataBit (v.testBit 0)]

/-- Colon-consistency of a state: the active-low DP/colon bit (bit 13)
of digit words 1 and 2 is clear exactly when the colon flag is set. -/
def colonInv (s : IOState) : Prop :=
  (s.displayBuffer 1).testBit 13 = !s.displayColon ∧
  (s.displayBuffer 2).testBit 13 = !s.displayColon

end IO22D08

/-! ## Helper lemmas -/

namespace IO22D08

lemma charAt_or_2000 : ∀ c : Nat, c < 17 → charAt c ||| 0x2000 = charAt c := by decide

lemma or_absorb (x sel : Nat) (hx : x ||| 0x2000 = x) :
    ((x ||| sel) ||| 0x2000) ||| sel = x ||| sel := by
  rw [Nat.or_assoc x sel 0x2000, Nat.or_comm sel 0x2000, ← Nat.or_assoc, hx,
    Nat.or_assoc, Nat.or_self]

lemma t13_dp : (0xDFFF : Nat).testBit 13 = false := by decide

lemma t13_colon : (0x2000 : Nat).testBit 13 = true := by decide

lemma t13_sel1 : (0x0002 : Nat).testBit 13 = false := by decide

lemma t13_sel2 : (0x0004 : Nat).testBit 13 = false := by decide

/-- `_updateColon` always leaves digit words 1 and 2 consistent with the
colon flag. -/
lemma colonInv_updateColon (s : IOState) : colonInv (updateColon s) := by
  unfold colonInv updateColon updateDigitSelect
  cases h : s.displayColon <;>
    simp [h, Function.update, digitSelectAt, digitSelect, dpSegment,
      Nat.testBit_or, Nat.testBit_and, t13_dp, t13_colon, t13_sel1, t13_sel2]

lemma testBit_255 (i : Nat) : (255 : Nat).testBit i = decide (i < 8) := by
  rw [show (255 : Nat) = 2 ^ 8 - 1 by norm_num, Nat.testBit_two_pow_sub_one]

lemma testBit_hi_false {x : Nat} (hx : x < 256) {i : Nat} (hi : 8 ≤ i) :
    x.testBit i = false :=
  Nat.testBit_lt_two_pow (lt_of_lt_of_le hx (Nat.pow_le_pow_right (by norm_num : 0 < 2) hi))

lemma and_one_shiftLeft_bne (v k : Nat) : ((v &&& (1 <<< k)) != 0) = v.testBit k := by
  rw [Nat.one_shiftLeft, Nat.and_two_pow]
  cases h : v.testBit k <;> simp

/-- Arduino `shiftOut` with `MSBFIRST` clocks out exactly the bits
`testBit 7, …, testBit 0` of its byte argument. -/
lemma shiftOut_eq_byteBitsMSB (v : Nat) : shiftOut v = byteBitsMSB v := by
  rw [shiftOut, byteBitsMSB]
  norm_num [List.range_succ, and_one_shiftLeft_bne]

lemma lowByte_eq_mod (w : Nat) : lowByte w = w % 256 := by
  rw [lowByte, show (0xFF : Nat) = 2 ^ 8 - 1 by norm_num,
    Nat.and_pow_two_sub_one_eq_mod]

lemma highByte_eq (w : Nat) : highByte w = w / 256 % 256 := by
  rw [highByte, Nat.shiftRight_eq_div_pow]

/-- A fixed reference state used by the witness theorems: a freshly
constructed driver (zeroed indeterminate memory) after `begin()`. -/
def s0 : IOState := «begin» (construct (fun _ => 0) true)

end IO22D08

/-! ## Claim theorems -/

namespace IO22D08

/-- Claim C1: a single `refreshDisplayAndRelays` call shifts out, for
each of the 4 digit words in left-to-right order, exactly the low byte
of the digit word, then its high byte, then the relay byte, each
MSB-first, with the latch driven low immediately before and high
immediately after each digit's 3-byte group. -/
theorem refresh_trace_spec (s : IOState) :
    (refreshDisplayAndRelays s).2 =
      [ShiftEvent.latchLow] ++ byteBitsMSB (s.displayBuffer 0 % 256) ++
        byteBitsMSB (s.displayBuffer 0 / 256 % 256) ++ byteBitsMSB s.relayBuffer ++
        [ShiftEvent.latchHigh] ++
      ([ShiftEvent.latchLow] ++ byteBitsMSB (s.displayBuffer 1 % 256) ++
        byteBitsMSB (s.displayBuffer 1 / 256 % 256) ++ byteBitsMSB s.relayBuffer ++
        [ShiftEvent.latchHigh]) ++
      ([ShiftEvent.latchLow] ++ byteBitsMSB (s.displayBuffer 2 % 256) ++
        byteBitsMSB (s.displayBuffer 2 / 256 % 256) ++ byteBitsMSB s.relayBuffer ++
        [ShiftEvent.latchHigh]) ++
      ([ShiftEvent.latchLow] ++ byteBitsMSB (s.displayBuffer 3 % 256) ++
        byteBitsMSB (s.displayBuffer 3 / 256 % 256) ++ byteBitsMSB s.relayBuffer ++
        [ShiftEvent.latchHigh]) := by
  simp [refreshDisplayAndRelays, shiftOut_eq_byteBitsMSB, lowByte_eq_mod, highByte_eq]

/-- Claim C2: `relaySet(M, S)` is the masked read-modify-write
`relayByte' = (relayByte & ~M) | (S & M)` with no other state change:
afterwards `relayGet M = S &&& M`, bits outside `M` keep their previous
values, and `relaySet 0x00 S` leaves the state unchanged for every `S`. -/
theorem relaySet_masked_rmw (s : IOState) (M S : Nat) (hM : M < 256) (hS : S < 256)
    (hr : s.relayBuffer < 256) :
    relayGet M (relaySet M S s) = S &&& M ∧
    (∀ i : Nat, M.testBit i = false →
      ((relaySet M S s).relayBuffer).testBit i = s.relayBuffer.testBit i) ∧
    relaySet 0 S s = s ∧
    (relaySet M S s).displayBuffer = s.displayBuffer ∧
    (relaySet M S s).displayColon = s.displayColon ∧
    (relaySet M S s).relayOEHigh = s.relayOEHigh := by
  refine ⟨?_, ?_, ?_, rfl, rfl, rfl⟩
  · apply Nat.eq_of_testBit_eq
    intro i
    simp only [relayGet, relaySet, Nat.testBit_and, Nat.testBit_or, Nat.testBit_xor]
    by_cases hi : i < 8
    · rw [testBit_255 i]
      simp only [decide_eq_true hi]
      cases hMi : M.testBit i <;> simp
    · rw [testBit_hi_false hM (by omega), testBit_hi_false hS (by omega),
        testBit_hi_false hr (by omega)]
      simp
  · intro i hMi
    simp only [relaySet, Nat.testBit_and, Nat.testBit_or, Nat.testBit_xor, hMi]
    by_cases hi : i < 8
    · rw [testBit_255 i]
      simp [hi]
    · rw [testBit_255 i, testBit_hi_false hr (by omega)]
      simp
  · have : (s.relayBuffer &&& (0xFF ^^^ 0)) ||| (S &&& 0) = s.relayBuffer := by
      rw [Nat.xor_zero, Nat.and_zero, Nat.or_zero,
        show (0xFF : Nat) = 2 ^ 8 - 1 by norm_num, Nat.and_pow_two_sub_one_eq_mod,
        Nat.mod_eq_of_lt (by norm_num [hr])]
    rw [relaySet, this]

/-- Witness for C2 at a concrete state and mask. -/
theorem relaySet_masked_rmw_witness :
    relayGet 0x0F (relaySet 0x0F 0xF3 s0) = 0xF3 &&& 0x0F :=
  (relaySet_masked_rmw s0 0x0F 0xF3 (by decide) (by decide) (by decide)).1

/-- Claim C3: with the colon flag clear, `displayNumber v` puts into
display position `i` (0 = left-most) the segment pattern of decimal
digit `v / 10 ^ (3 - i) % 10` with that position's digit-select mask
OR'd in, and digits beyond the 4-digit capacity are dropped silently:
the result equals that of `displayNumber (v % 10000)`. -/
theorem displayNumber_digits (s : IOState) (v : Nat) (hv : v < 65536)
    (hcol : s.displayColon = false) :
    (∀ i : Fin 4,
      (displayNumber v s).displayBuffer i =
        charAt (v / 10 ^ (3 - i.val) % 10) ||| digitSelectAt i) ∧
    displayNumber v s = displayNumber (v % 10000) s := by
  constructor
  · intro i
    fin_cases i
    · simp [displayNumber, displayNumberStep, updateColon, updateDigitSelect,
        updateDigit, hcol, Function.update, digitSelectAt, digitSelect, dpSegment]
      rw [show v / 10 / 10 / 10 = v / 1000 by omega]
    · simp [displayNumber, displayNumberStep, updateColon, updateDigitSelect,
        updateDigit, hcol, Function.update, digitSelectAt, digitSelect, dpSegment]
      rw [show v / 10 / 10 = v / 100 by omega]
      exact or_absorb _ _ (charAt_or_2000 _ (by omega))
    · simp [displayNumber, displayNumberStep, updateColon, updateDigitSelect,
        updateDigit, hcol, Function.update, digitSelectAt, digitSelect, dpSegment]
      exact or_absorb _ _ (charAt_or_2000 _ (by omega))
    · simp [displayNumber, displayNumberStep, updateColon, updateDigitSelect,
        updateDigit, hcol, Function.update, digitSelectAt, digitSelect, dpSegment]
      rfl
  · have e0 : v % 10000 % 10 = v % 10 := Nat.mod_mod_of_dvd v (by norm_num)
    have e1 : v % 10000 / 10 % 10 = v / 10 % 10 := by
      rw [show (10000 : Nat) = 10 * 1000 by norm_num, Nat.mod_mul_right_div_self,
        Nat.mod_mod_of_dvd _ (by norm_num : (10 : Nat) ∣ 1000)]
    have e2 : v % 10000 / 10 / 10 % 10 = v / 10 / 10 % 10 := by
      rw [Nat.div_div_eq_div_mul, Nat.div_div_eq_div_mul,
        show (10000 : Nat) = 100 * 100 by norm_num, Nat.mod_mul_right_div_self,
        Nat.mod_mod_of_dvd _ (by norm_num : (10 : Nat) ∣ 100)]
    have e3 : v % 10000 / 10 / 10 / 10 % 10 = v / 10 / 10 / 10 % 10 := by
      rw [Nat.div_div_eq_div_mul, Nat.div_div_eq_div_mul, Nat.div_div_eq_div_mul,
        Nat.div_div_eq_div_mul, show (10000 : Nat) = 1000 * 10 by norm_num,
        Nat.mod_mul_right_div_self, Nat.mod_mod_of_dvd _ (dvd_refl 10)]
    simp only [displayNumber, displayNumberStep, List.foldl_cons, List.foldl_nil,
      e0, e1, e2, e3]

/-- Witness for C3 at `v = 1234` on the zeroed reference state. -/
theorem displayNumber_digits_witness :
    (∀ i : Fin 4,
      (displayNumber 1234 s0).displayBuffer i =
        charAt (1234 / 10 ^ (3 - i.val) % 10) ||| digitSelectAt i) ∧
    displayNumber 1234 s0 = displayNumber (1234 % 10000) s0 :=
  displayNumber_digits s0 1234 (by decide) rfl

end IO22D08

namespace IO22D08

/-- Claim C4: colon re-application runs as the final step of every
public display mutation: after `displayNumber`, `displayCharacter`,
`displayMessage`, `setColon` or `toggleColon` completes, digit words 1
and 2 reflect the current colon flag (active-low colon bit 13 clear iff
the flag is set); in particular `setColon true` followed by any
`displayCharacter 1 x` leaves the colon still asserted. -/
theorem colon_reapplied_last (s : IOState) (v n c m : Nat) (b : Bool)
    (hn : n < 4) (hc : c < 17) (hm : m < 4) :
    colonInv (displayNumber v s) ∧
    (∀ s', displayCharacter n c s = some s' → colonInv s') ∧
    (∀ s', displayMessage m s = some s' → colonInv s') ∧
    colonInv (setColon b s) ∧
    colonInv (toggleColon s) ∧
    (∀ x s', x < 17 → displayCharacter 1 x (setColon true s) = some s' →
      (s'.displayBuffer 1).testBit 13 = false ∧ s'.displayColon = true) := by
  refine ⟨colonInv_updateColon _, ?_, ?_, colonInv_updateColon _,
    colonInv_updateColon _, ?_⟩
  · intro s' h
    rw [displayCharacter, dif_pos ⟨hn, hc⟩] at h
    have := Option.some.inj h
    subst this
    exact colonInv_updateColon _
  · intro s' h
    rw [displayMessage, if_pos hm] at h
    have := Option.some.inj h
    subst this
    exact colonInv_updateColon _
  · intro x s' hx h
    rw [displayCharacter, dif_pos ⟨by omega, hx⟩] at h
    have := Option.some.inj h
    subst this
    have hflag : (updateColon (updateDigitSelect ⟨1, by omega⟩
        (updateDigit ⟨1, by omega⟩ x (setColon true s)))).displayColon = true := rfl
    refine ⟨?_, hflag⟩
    have hci := colonInv_updateColon (updateDigitSelect ⟨1, by omega⟩
        (updateDigit ⟨1, by omega⟩ x (setColon true s)))
    rw [colonInv] at hci
    rw [hci.1, hflag]
    rfl

/-- Witness for C4: the invariant after a concrete `displayNumber`. -/
theorem colon_reapplied_last_witness : colonInv (displayNumber 1234 s0) :=
  (colon_reapplied_last s0 1234 0 0 0 true (by decide) (by decide) (by decide)).1

/-- Claim C5: `relayNumToMask` maps relay numbers 1–7 to `1 <<< n` and
folds every out-of-range number (0 and everything ≥ 8) onto the fixed
fallback bit 0, so `relayNumToMask 8 = relayNumToMask 0 = 0x01`. -/
theorem relayNumToMask_spec :
    (∀ n : Nat, 1 ≤ n → n ≤ 7 → relayNumToMask n = 1 <<< n) ∧
    (∀ n : Nat, 8 ≤ n → relayNumToMask n = 0x01) ∧
    relayNumToMask 0 = 0x01 ∧ relayNumToMask 8 = 0x01 := by
  refine ⟨fun n h1 h2 => ?_, fun n h => ?_, by decide, by decide⟩
  · rw [relayNumToMask, if_neg (by omega)]
  · rw [relayNumToMask, if_pos (by omega)]
    decide

/-- Witness for C5 at relay numbers 3 and 9. -/
theorem relayNumToMask_spec_witness :
    relayNumToMask 3 = 1 <<< 3 ∧ relayNumToMask 9 = 0x01 :=
  ⟨relayNumToMask_spec.1 3 (by decide) (by decide),
   relayNumToMask_spec.2.1 9 (by decide)⟩

/-- Counterexample to claim C6: construction plus `begin()` do not
initialise the digit words to any fixed blank/off value — the buffer
contents still depend on whatever the underlying (indeterminate) memory
held, because neither the constructor nor `begin()` writes
`_displayBuffer`. -/
theorem construct_not_blank :
    ¬ ∃ w : Nat, ∀ (j : Fin 4 → Nat) (oe : Bool) (i : Fin 4),
        («begin» (construct j oe)).displayBuffer i = w := by
  rintro ⟨w, h⟩
  have h0 := h (fun _ => 0) true 0
  have h1 := h (fun _ => 1) true 0
  simp [«begin», disableRelays, construct] at h0 h1
  omega

/-- Amended C6: at construction and after `begin()` the relay byte is
0x00, the colon flag is false and the relay output-enable line is
driven high (all relays physically off), but the 4 digit words are left
exactly as the pre-existing memory contents. -/
theorem construct_begin_state (j : Fin 4 → Nat) (oe : Bool) :
    («begin» (construct j oe)).relayBuffer = 0 ∧
    («begin» (construct j oe)).displayColon = false ∧
    («begin» (construct j oe)).relayOEHigh = true ∧
    («begin» (construct j oe)).displayBuffer = j :=
  ⟨rfl, rfl, rfl, rfl⟩

/-- Counterexample to claim C7: `displayCharacter` does not clamp its
symbol index; at `c = 17` it reads `_characters[17]` past the end of
the 17-entry table (undefined behaviour, modelled as `none`) instead of
applying any clamping/no-op/fallback. -/
theorem displayCharacter_oob_none :
    displayCharacter 0 17 (construct (fun _ => 0) true) = none := by
  rw [displayCharacter, dif_neg (by omega)]

/-- Amended C7: only `relayNumToMask` folds out-of-range input to a
defined fallback; `displayCharacter` and `displayMessage` perform
unchecked table/buffer accesses, and stay within bounds — touching no
adjacent state — only under the caller contract `n < 4`, `c < 17`,
`m < 4`. -/
theorem display_ops_inbounds (s : IOState) (n c m : Nat)
    (hn : n < 4) (hc : c < 17) (hm : m < 4) :
    (displayCharacter n c s).isSome = true ∧
    (displayMessage m s).isSome = true ∧
    (∀ s', displayCharacter n c s = some s' →
      s'.relayBuffer = s.relayBuffer ∧ s'.relayOEHigh = s.relayOEHigh ∧
      s'.displayColon = s.displayColon ∧
      ∀ i : Fin 4, i.val ≠ n → i.val ≠ 1 → i.val ≠ 2 →
        s'.displayBuffer i = s.displayBuffer i) ∧
    (∀ s', displayMessage m s = some s' →
      s'.relayBuffer = s.relayBuffer ∧ s'.relayOEHigh = s.relayOEHigh) ∧
    (∀ k : Nat, 8 ≤ k → relayNumToMask k = 0x01) := by
  refine ⟨?_, ?_, ?_, ?_, fun k hk => by rw [relayNumToMask, if_pos (by omega)]; decide⟩
  · rw [displayCharacter, dif_pos ⟨hn, hc⟩]
    rfl
  · rw [displayMessage, if_pos hm]
    rfl
  · intro s' h
    rw [displayCharacter, dif_pos ⟨hn, hc⟩] at h
    have := Option.some.inj h
    subst this
    refine ⟨rfl, rfl, rfl, ?_⟩
    intro i hin hi1 hi2
    have e1 : i ≠ (1 : Fin 4) := fun he => hi1 (by simp [he])
    have e2 : i ≠ (2 : Fin 4) := fun he => hi2 (by simp [he])
    have en : i ≠ (⟨n, hn⟩ : Fin 4) := fun he => hin (by simp [he])
    cases hcol : s.displayColon <;>
      simp [updateColon, updateDigitSelect, updateDigit, hcol,
        Function.update_noteq, e1, e2, en]
  · intro s' h
    rw [displayMessage, if_pos hm] at h
    have := Option.some.inj h
    subst this
    exact ⟨rfl, rfl⟩

/-- Witness for C7 (amended) at a concrete in-range call. -/
theorem display_ops_inbounds_witness :
    (displayCharacter 2 5 s0).isSome = true ∧ (displayMessage 2 s0).isSome = true :=
  ⟨(display_ops_inbounds s0 2 5 2 (by decide) (by decide) (by decide)).1,
   (display_ops_inbounds s0 2 5 2 (by decide) (by decide) (by decide)).2.1⟩

end IO22D08

namespace IO22D08

/-- Claim C8: `enableRelays`/`disableRelays` touch only the physical
output-enable line and are idempotent with respect to the buffer:
repeated `disableRelays` leaves the relay byte, digit words and colon
flag unchanged, and a subsequent `enableRelays` makes the physical
relays reflect exactly the buffered commanded state from before the
disable. -/
theorem relay_enable_disable_frame (s : IOState) :
    disableRelays (disableRelays s) = disableRelays s ∧
    (disableRelays s).relayBuffer = s.relayBuffer ∧
    (disableRelays s).displayBuffer = s.displayBuffer ∧
    (disableRelays s).displayColon = s.displayColon ∧
    enableRelays (enableRelays s) = enableRelays s ∧
    (enableRelays (disableRelays s)).relayBuffer = s.relayBuffer ∧
    physicalRelays (enableRelays (disableRelays s)) = s.relayBuffer :=
  ⟨rfl, rfl, rfl, rfl, rfl, rfl, rfl⟩

/-- Claim C9: with the colon flag clear, `displayMessage MESSAGE_ON`
writes into each digit position exactly the segment pattern of the
fixed ON-message table entry (symbol indices 10, 10, 11, 12) with that
position's digit-select mask OR'd in. -/
theorem displayMessage_on_spec (s : IOState) (hcol : s.displayColon = false)
    (i : Fin 4) :
    (displayMessage 1 s).map (fun t => t.displayBuffer i) =
      some (charAt (messageSymbol 1 i) ||| digitSelectAt i) := by
  rw [displayMessage, if_pos (by norm_num)]
  fin_cases i <;>
    simp [updateColon, updateDigitSelect, updateDigit, hcol, Function.update,
      digitSelectAt, digitSelect, dpSegment, messageSymbol, displayMessages] <;>
    decide

/-- Witness for C9 at position 2 of the zeroed reference state. -/
theorem displayMessage_on_spec_witness :
    (displayMessage 1 s0).map (fun t => t.displayBuffer 2) =
      some (charAt (messageSymbol 1 2) ||| digitSelectAt 2) :=
  displayMessage_on_spec s0 rfl 2

/-- Claim C10: `refreshDisplayAndRelays` only reads the Output Frame
Buffer: after a call, the digit words, the relay byte and the colon
flag are exactly as they were before. -/
theorem refresh_preserves_state (s : IOState) :
    (refreshDisplayAndRelays s).1 = s ∧
    (refreshDisplayAndRelays s).1.displayBuffer = s.displayBuffer ∧
    (refreshDisplayAndRelays s).1.relayBuffer = s.relayBuffer ∧
    (refreshDisplayAndRelays s).1.displayColon = s.displayColon :=
  ⟨rfl, rfl, rfl, rfl⟩

end IO22D08
